import Mathlib

/-!
Shallow embedding of the solar-ev-charger control loop.

Power values are modelled as rationals (the Python source uses floats with
exact threshold comparisons and only additive/multiplicative arithmetic on
decimal constants). Python values that may be absent are modelled as
`Option`; Python exceptions are modelled as `Except Unit`.
-/

/-- Model of a JSON scalar as Python sees it: booleans, integers, strings
and the value None. Used for the charger status dictionary. -/
inductive PyVal where
  | bool (b : Bool) : PyVal
  | int (n : Int) : PyVal
  | str (s : String) : PyVal
  | null : PyVal
deriving DecidableEq, Repr

/-- Python str() applied to a scalar value. -/
def pyStr : PyVal → String
  | .bool true => "True"
  | .bool false => "False"
  | .int n => toString n
  | .str s => s
  | .null => "None"

/-- Python str() applied to the result of dict.get, where an absent key
yields None. -/
def pyStrOpt (o : Option PyVal) : String :=
  pyStr (o.getD .null)

/-- Python truthiness of the result of dict.get (absent key is None, falsy). -/
def pyTruthy : Option PyVal → Bool
  | none => false
  | some (.bool b) => b
  | some (.int n) => n != 0
  | some (.str s) => s != ""
  | some .null => false

/-- Python equality of the result of dict.get against an integer literal
(None compares unequal; a bool compares as its integer value). -/
def pyEqInt : Option PyVal → Int → Bool
  | none, _ => false
  | some (.bool b), m => (if b then (1 : Int) else 0) == m
  | some (.int n), m => n == m
  | some (.str _), _ => false
  | some .null, _ => false

/-- Python dict lookup on a key list (first binding wins), `d.get(k)`. -/
def lookupDict (d : List (String × PyVal)) (k : String) : Option PyVal :=
  (d.find? (fun kv => kv.fst == k)).map Prod.snd

/-- Readiness gate from Charger.check_for_readiness: stop when fup is falsy,
when car == 1, or when car == 4 and frc == 0; otherwise proceed.
The source returns the status dict (truthy) or False; we model the boolean
decision. -/
def Charger.check_for_readiness (fup car frc : Option PyVal) : Bool :=
  if pyTruthy fup = false then false
  else if pyEqInt car 1 then false
  else if pyEqInt car 4 && pyEqInt frc 0 then false
  else true

/-- Parameter diff computed by Charger.set_value: keep exactly the kwargs
whose str() differs from the str() of the current status value. -/
def Charger.set_value_params (status kwargs : List (String × PyVal)) :
    List (String × PyVal) :=
  kwargs.filter (fun kv => pyStrOpt (lookupDict status kv.fst) != pyStr kv.snd)

/-- Number of network calls Charger.set_value makes: zero when the diff is
empty (the early return), otherwise exactly one GET of the set endpoint. -/
def Charger.set_value_calls (status kwargs : List (String × PyVal)) : Nat :=
  if Charger.set_value_params status kwargs = [] then 0 else 1

/-- Entry of the static possible_charger_settings table. -/
structure ChargerSettingCandidate where
  power : ℚ
  amp : Int
  psm : Int
deriving DecidableEq, Repr

/-- Static candidate table from src/main.py, in source order (descending
power threshold; the 3-phase block, then the 1-phase block). -/
def possible_charger_settings : List ChargerSettingCandidate :=
  [⟨6900, 10, 2⟩, ⟨6200, 9, 2⟩, ⟨5500, 8, 2⟩, ⟨4800, 7, 2⟩, ⟨4100, 6, 2⟩,
   ⟨3700, 16, 1⟩, ⟨3200, 14, 1⟩, ⟨2800, 12, 1⟩, ⟨2300, 10, 1⟩, ⟨1800, 8, 1⟩,
   ⟨1400, 6, 1⟩]

/-- Candidate chosen by the next(...) generator in main: the first table
entry whose power fits under the available power and whose phase count is
eligible (frm == 2 allows all, otherwise only psm == 1). -/
def selected_candidate (available_power : ℚ) (frm : Option Int) :
    Option ChargerSettingCandidate :=
  possible_charger_settings.find?
    (fun p => decide (p.power ≤ available_power) && (frm == some 2 || p.psm == 1))

/-- ChargerAction taken by the decision step of main: disable the charger, or write
a setpoint via set_value with the given frc, amp and psm. -/
inductive ChargerAction where
  | disable : ChargerAction
  | write (frc amp psm : Int) : ChargerAction
deriving DecidableEq, Repr

/-- Decision step of main (lines 144-167): disable when available power is
not positive, else write frc=0 plus the amp and psm of the first fitting
eligible candidate, else disable. -/
def allocate (available_power : ℚ) (frm : Option Int) : ChargerAction :=
  if available_power ≤ 0 then .disable
  else
    match selected_candidate available_power frm with
    | some p => .write 0 p.amp p.psm
    | none => .disable

/-- Modelled from the spec wording of the decision: candidates are first
filtered to the phase-eligible ones, then scanned in table order for the
first whose threshold is at most the available power. Used to compare the
spec formulation against the source formulation `allocate`. -/
def eligible_candidates (frm : Option Int) : List ChargerSettingCandidate :=
  if frm = some 2 then possible_charger_settings
  else possible_charger_settings.filter (fun p => p.psm == 1)

/-- Spec-side decision function, following the spec sentence word by word. -/
def allocate_spec (available_power : ℚ) (frm : Option Int) : ChargerAction :=
  if available_power ≤ 0 then .disable
  else
    match (eligible_candidates frm).find?
        (fun p => decide (p.power ≤ available_power)) with
    | some p => .write 0 p.amp p.psm
    | none => .disable

/-- Snapshot returned by Viessmann.get_photovoltaic_data. The dataclass in
the source performs no validation, so state_of_charge can be handed None
when the feature is absent from the response; the other fields are numeric
whenever the function returns at all (otherwise it raises first). -/
structure PhotovoltaicData where
  solar_power : ℚ
  battery_power : ℚ
  grid_exchange : ℚ
  state_of_charge : Option ℚ
  household : ℚ
deriving DecidableEq, Repr

/-- Viessmann.get_feature_value: first feature entry with the given name,
or None when absent. A feature response is modelled as the list of
(feature name, properties.value.value) pairs. -/
def Viessmann.get_feature_value (features : List (String × ℚ))
    (feature_name : String) : Option ℚ :=
  (features.find? (fun d => d.fst == feature_name)).map Prod.snd

/-- Viessmann.get_photovoltaic_data: multiply the solar feature by 1000
(raises at the multiplication when it is absent), read battery, grid and
state of charge, derive household = solar + battery + grid (raises at the
addition when battery or grid is absent). A missing state of charge does
not raise: it is passed to the dataclass as None. -/
def Viessmann.get_photovoltaic_data (features : List (String × ℚ)) :
    Except Unit PhotovoltaicData :=
  match Viessmann.get_feature_value features "photovoltaic.production.current" with
  | none => .error ()
  | some s =>
    let solar_power := s * 1000
    let battery_power := Viessmann.get_feature_value features "ess.power"
    let grid_exchange := Viessmann.get_feature_value features "pcc.transfer.power.exchange"
    let state_of_charge := Viessmann.get_feature_value features "ess.stateOfCharge"
    match battery_power, grid_exchange with
    | some b, some g =>
        .ok ⟨solar_power, b, g, state_of_charge, solar_power + b + g⟩
    | _, _ => .error ()

/-- Viessmann.is_token_valid, after the jwt.decode step: `decoded` is none
when decoding raised jwt.DecodeError, some none when the exp claim is
absent, and some (some e) for a numeric exp claim e. The source computes
`expiration and expiration > time.time() + 60`, so a zero exp is falsy. -/
def Viessmann.is_token_valid (decoded : Option (Option ℚ)) (now : ℚ) : Bool :=
  match decoded with
  | none => false
  | some none => false
  | some (some expiration) =>
      decide (expiration ≠ 0) && decide (expiration > now + 60)

/-- Charger status fields of interest to main after the readiness gate. -/
structure ChargerData where
  frc : Option Int
  nrg : Option (List ℚ)
  frm : Option Int
  pgt : Option ℚ

/-- Available power computation of main line 129:
`pv_data.solar_power - effective_household - pgt`. When pgt is absent from
the status, the variable is None and the subtraction raises TypeError. -/
def compute_available_power (solar_power effective_household : ℚ)
    (pgt : Option ℚ) : Except Unit ℚ :=
  match pgt with
  | none => .error ()
  | some q => .ok (solar_power - effective_household - q)

/-- Outcomes of the external calls made during one pass of main. -/
structure World where
  readiness : Except Unit (Option ChargerData)
  pv_fetch : Except Unit PhotovoltaicData
  now_hour : Nat
  disable_outcome : Except Unit Unit

/-- Observable trace of one pass of main: how many times charger.disable was
invoked, which set_value setpoint writes were invoked, and whether an
exception escaped past main (the outer except Exception handler). -/
structure MainTrace where
  disable_calls : Nat
  write_calls : List ChargerAction
  escaped : Bool
deriving DecidableEq, Repr

/-- One pass of main from the readiness check onward (src/main.py lines
97-170). Exceptions from readiness, nrg indexing, the pgt subtraction and
the state-of-charge comparison are caught by the outer handler (no disable);
a telemetry failure after a successful readiness check runs the inner
handler, which disables the charger and returns even when the disable call
itself raises. -/
def main_pass (w : World) : MainTrace :=
  match w.readiness with
  | .error _ => ⟨0, [], false⟩
  | .ok none => ⟨0, [], false⟩
  | .ok (some charger_data) =>
    match charger_data.nrg.bind (fun l => l[11]?) with
    | none => ⟨0, [], false⟩
    | some energy =>
      match w.pv_fetch with
      | .error _ =>
        match w.disable_outcome with
        | .error _ => ⟨1, [], false⟩
        | .ok _ => ⟨1, [], false⟩
      | .ok pv_data =>
        let effective_household := pv_data.household - energy
        match compute_available_power pv_data.solar_power effective_household
            charger_data.pgt with
        | .error _ => ⟨0, [], false⟩
        | .ok ap0 =>
          match pv_data.state_of_charge with
          | none => ⟨0, [], false⟩
          | some soc =>
            let ap1 := if 90 < soc ∧ w.now_hour < 15
              then min 7500 (ap0 + 1500) else ap0
            let ap2 := if charger_data.frm = some 0 ∧ 0 < energy ∧ 50 < soc
              then max ap1 1500 else ap1
            match allocate ap2 charger_data.frm with
            | .disable => ⟨1, [], false⟩
            | .write f a p => ⟨0, [.write f a p], false⟩

/-! Helper lemmas about List.find? shared by the decision-step theorems. -/

theorem find_ext {α : Type} (p q : α → Bool) (l : List α) (h : ∀ a, p a = q a) :
    l.find? p = l.find? q := by
  induction l with
  | nil => rfl
  | cons x xs ih => rw [List.find?_cons, List.find?_cons, h x, ih]

theorem find_filter {α : Type} (q p : α → Bool) (l : List α) :
    (l.filter q).find? p = l.find? (fun a => q a && p a) := by
  induction l with
  | nil => rfl
  | cons x xs ih =>
    cases hq : q x <;> cases hp : p x <;>
      simp [List.filter_cons, List.find?_cons, hq, hp, ih]

theorem find_mono {α : Type} (power : α → ℚ) (elig : α → Bool) (p1 p2 : ℚ)
    (h12 : p1 ≤ p2) (l : List α) (c1 : α)
    (h1 : l.find? (fun c => decide (power c ≤ p1) && elig c) = some c1) :
    ∃ c2, l.find? (fun c => decide (power c ≤ p2) && elig c) = some c2 ∧
      power c1 ≤ power c2 := by
  induction l with
  | nil => simp [List.find?] at h1
  | cons x xs ih =>
    rw [List.find?_cons] at h1
    cases hx1 : (decide (power x ≤ p1) && elig x) with
    | true =>
      rw [hx1] at h1
      injection h1 with hxc
      subst hxc
      simp only [Bool.and_eq_true, decide_eq_true_eq] at hx1
      have hx2 : (decide (power x ≤ p2) && elig x) = true := by
        simp only [Bool.and_eq_true, decide_eq_true_eq]
        exact ⟨le_trans hx1.1 h12, hx1.2⟩
      exact ⟨x, by rw [List.find?_cons, hx2], le_refl _⟩
    | false =>
      rw [hx1] at h1
      cases hx2 : (decide (power x ≤ p2) && elig x) with
      | true =>
        refine ⟨x, by rw [List.find?_cons, hx2], ?_⟩
        have hc1 := List.find?_some h1
        simp only [Bool.and_eq_true, decide_eq_true_eq] at hc1 hx2
        have hdx : ¬ (power x ≤ p1) := by
          intro hle
          rw [decide_eq_true hle, hx2.2] at hx1
          simp at hx1
        exact le_trans hc1.1 (le_of_lt (lt_of_not_le hdx))
      | false =>
        obtain ⟨c2, hf, hle⟩ := ih h1
        exact ⟨c2, by rw [List.find?_cons, hx2]; exact hf, hle⟩

/-- C1: for every computed available power and post-gate phase-preference
mode frm, the decision of main is exactly the spec formulation: available
power at most 0 disables; otherwise the table is scanned in its given
descending order restricted to phase-eligible candidates (all when frm is 2,
single-phase psm = 1 otherwise), the first candidate whose threshold is at
most the available power (exact comparison, no epsilon) is written as
frc = 0 with its amp and psm, and disable is called when none fits. -/
theorem allocate_matches_spec (available_power : ℚ) (frm : Option Int) :
    allocate available_power frm = allocate_spec available_power frm := by
  unfold allocate allocate_spec
  by_cases hap : available_power ≤ 0
  · simp [hap]
  · rw [if_neg hap, if_neg hap]
    have hsel : selected_candidate available_power frm =
        (eligible_candidates frm).find?
          (fun p => decide (p.power ≤ available_power)) := by
      unfold selected_candidate eligible_candidates
      by_cases hfrm : frm = some 2
      · subst hfrm
        rw [if_pos rfl]
        apply find_ext
        intro p
        simp
      · rw [if_neg hfrm, find_filter]
        apply find_ext
        intro p
        have hne : (frm == some 2) = false := beq_eq_false_iff_ne.mpr hfrm
        rw [hne]
        simp [Bool.and_comm]
    rw [hsel]

/-- C9: the static candidate table is monotonically decreasing in its power
thresholds, and the table lookup is monotone: for a fixed phase-preference
mode and available powers p1 < p2, whenever p1 selects a candidate, p2 also
selects one, of threshold no lower than the one selected for p1. -/
theorem allocation_lookup_monotone :
    List.Pairwise (fun a b => b.power ≤ a.power) possible_charger_settings ∧
    ∀ (frm : Option Int) (p1 p2 : ℚ) (c1 : ChargerSettingCandidate),
      p1 < p2 → selected_candidate p1 frm = some c1 →
      ∃ c2, selected_candidate p2 frm = some c2 ∧ c1.power ≤ c2.power := by
  constructor
  · decide
  · intro frm p1 p2 c1 h12 h1
    exact find_mono ChargerSettingCandidate.power
      (fun p => frm == some 2 || p.psm == 1) p1 p2 (le_of_lt h12)
      possible_charger_settings c1 h1

theorem allocation_lookup_monotone_witness :
    ∃ c2, selected_candidate 5000 (some 2) = some c2 ∧
      (⟨1800, 8, 1⟩ : ChargerSettingCandidate).power ≤ c2.power :=
  allocation_lookup_monotone.2 (some 2) 2000 5000 ⟨1800, 8, 1⟩ (by norm_num)
    (by decide)

/-- C2: whenever the readiness check succeeds (and the nrg access that
precedes the fetch succeeds) and the telemetry fetch then raises, the pass
calls charger.disable exactly once, performs no setpoint write, and no
exception escapes past main, whatever the disable call itself does. -/
theorem telemetry_failure_disables_once (w : World) (cd : ChargerData)
    (energy : ℚ)
    (hready : w.readiness = .ok (some cd))
    (hnrg : cd.nrg.bind (fun l => l[11]?) = some energy)
    (hpv : w.pv_fetch = .error ()) :
    main_pass w = ⟨1, [], false⟩ := by
  simp only [main_pass, hready, hnrg, hpv]
  cases hdo : w.disable_outcome <;> rfl

theorem telemetry_failure_disables_once_witness :
    main_pass ⟨.ok (some ⟨some 0, some [0, 0, 0, 0, 0, 0, 0, 0, 0, 0, 0, 0],
        some 2, some 0⟩), .error (), 10, .ok ()⟩ = ⟨1, [], false⟩ :=
  telemetry_failure_disables_once _
    ⟨some 0, some [0, 0, 0, 0, 0, 0, 0, 0, 0, 0, 0, 0], some 2, some 0⟩ 0
    rfl rfl rfl

/-- C4 counterexample: with pgt absent, the available power computation of
main does not succeed with a default buffer of 0 (solar 5000, effective
household 0: the claim predicts ok (5000 - 0 - 0), the code raises). -/
theorem missing_pgt_not_defaulted :
    compute_available_power 5000 0 none ≠ Except.ok (5000 - 0 - 0) := by
  simp [compute_available_power]

/-- C4 amended: when the buffer threshold field pgt is absent from the
charger status, the subtraction on main line 129 raises instead of
defaulting to 0, and the pass aborts through the outer handler with no
disable call and no write. -/
theorem missing_pgt_aborts_pass (w : World) (cd : ChargerData) (energy : ℚ)
    (pv : PhotovoltaicData)
    (hready : w.readiness = .ok (some cd))
    (hnrg : cd.nrg.bind (fun l => l[11]?) = some energy)
    (hpv : w.pv_fetch = .ok pv)
    (hpgt : cd.pgt = none) :
    main_pass w = ⟨0, [], false⟩ := by
  simp only [main_pass, hready, hnrg, hpv, compute_available_power, hpgt]

theorem missing_pgt_aborts_pass_witness :
    main_pass ⟨.ok (some ⟨some 0, some [0, 0, 0, 0, 0, 0, 0, 0, 0, 0, 0, 0],
        some 2, none⟩), .ok ⟨1000, 0, 0, some 50, 1000⟩, 10, .ok ()⟩ =
      ⟨0, [], false⟩ :=
  missing_pgt_aborts_pass _
    ⟨some 0, some [0, 0, 0, 0, 0, 0, 0, 0, 0, 0, 0, 0], some 2, none⟩ 0
    ⟨1000, 0, 0, some 50, 1000⟩ rfl rfl rfl rfl

/-- C3 counterexample: a feature response that carries the three power
features but lacks ess.stateOfCharge still yields a returned snapshot, and
that snapshot has its state_of_charge field missing (None). -/
theorem missing_soc_still_returns_snapshot :
    Viessmann.get_photovoltaic_data
      [("photovoltaic.production.current", 3), ("ess.power", 100),
       ("pcc.transfer.power.exchange", -500)] =
    .ok ⟨3000, 100, -500, none, 2600⟩ := by
  have h1 : Viessmann.get_feature_value
      [("photovoltaic.production.current", 3), ("ess.power", 100),
       ("pcc.transfer.power.exchange", -500)]
      "photovoltaic.production.current" = some 3 := rfl
  have h2 : Viessmann.get_feature_value
      [("photovoltaic.production.current", 3), ("ess.power", 100),
       ("pcc.transfer.power.exchange", -500)] "ess.power" = some 100 := rfl
  have h3 : Viessmann.get_feature_value
      [("photovoltaic.production.current", 3), ("ess.power", 100),
       ("pcc.transfer.power.exchange", -500)]
      "pcc.transfer.power.exchange" = some (-500) := rfl
  have h4 : Viessmann.get_feature_value
      [("photovoltaic.production.current", 3), ("ess.power", 100),
       ("pcc.transfer.power.exchange", -500)] "ess.stateOfCharge" = none := rfl
  simp only [Viessmann.get_photovoltaic_data, h1, h2, h3, h4]
  norm_num

/-- C3 amended: a returned snapshot always has solar power (scaled by 1000),
battery power, grid exchange and the derived household populated, and the
fetch fails entirely when any of those three features is absent; the
state_of_charge field however is populated only when ess.stateOfCharge is
present, and is None otherwise. -/
theorem snapshot_population_amended :
    (∀ (features : List (String × ℚ)) (pv : PhotovoltaicData),
      Viessmann.get_photovoltaic_data features = .ok pv →
      (∃ s, Viessmann.get_feature_value features
          "photovoltaic.production.current" = some s ∧
        pv.solar_power = s * 1000) ∧
      Viessmann.get_feature_value features "ess.power" =
        some pv.battery_power ∧
      Viessmann.get_feature_value features "pcc.transfer.power.exchange" =
        some pv.grid_exchange ∧
      pv.state_of_charge =
        Viessmann.get_feature_value features "ess.stateOfCharge" ∧
      pv.household = pv.solar_power + pv.battery_power + pv.grid_exchange) ∧
    (∀ features : List (String × ℚ),
      (Viessmann.get_feature_value features
          "photovoltaic.production.current" = none ∨
       Viessmann.get_feature_value features "ess.power" = none ∨
       Viessmann.get_feature_value features "pcc.transfer.power.exchange" =
         none) →
      Viessmann.get_photovoltaic_data features = .error ()) := by
  constructor
  · intro features pv h
    cases hs : Viessmann.get_feature_value features
        "photovoltaic.production.current" with
    | none =>
      simp only [Viessmann.get_photovoltaic_data, hs] at h
      exact Except.noConfusion h
    | some s =>
      cases hb : Viessmann.get_feature_value features "ess.power" with
      | none =>
        simp only [Viessmann.get_photovoltaic_data, hs, hb] at h
        exact Except.noConfusion h
      | some b =>
        cases hg : Viessmann.get_feature_value features
            "pcc.transfer.power.exchange" with
        | none =>
          simp only [Viessmann.get_photovoltaic_data, hs, hb, hg] at h
          exact Except.noConfusion h
        | some g =>
          simp only [Viessmann.get_photovoltaic_data, hs, hb, hg,
            Except.ok.injEq] at h
          subst h
          exact ⟨⟨s, rfl, rfl⟩, rfl, rfl, rfl, rfl⟩
  · intro features h
    rcases h with h | h | h
    · simp only [Viessmann.get_photovoltaic_data, h]
    · cases hs : Viessmann.get_feature_value features
          "photovoltaic.production.current" with
      | none => simp only [Viessmann.get_photovoltaic_data, hs]
      | some s => simp only [Viessmann.get_photovoltaic_data, hs, h]
    · cases hs : Viessmann.get_feature_value features
          "photovoltaic.production.current" with
      | none => simp only [Viessmann.get_photovoltaic_data, hs]
      | some s =>
        cases hb : Viessmann.get_feature_value features "ess.power" with
        | none => simp only [Viessmann.get_photovoltaic_data, hs, hb]
        | some b => simp only [Viessmann.get_photovoltaic_data, hs, hb, h]

theorem snapshot_population_amended_witness :
    (∃ s, Viessmann.get_feature_value
        [("photovoltaic.production.current", 2), ("ess.power", 10),
         ("pcc.transfer.power.exchange", -10), ("ess.stateOfCharge", 50)]
        "photovoltaic.production.current" = some s ∧
      (PhotovoltaicData.mk 2000 10 (-10) (some 50) 2000).solar_power =
        s * 1000) ∧
    Viessmann.get_feature_value
      [("photovoltaic.production.current", 2), ("ess.power", 10),
       ("pcc.transfer.power.exchange", -10), ("ess.stateOfCharge", 50)]
      "ess.power" =
      some (PhotovoltaicData.mk 2000 10 (-10) (some 50) 2000).battery_power ∧
    Viessmann.get_feature_value
      [("photovoltaic.production.current", 2), ("ess.power", 10),
       ("pcc.transfer.power.exchange", -10), ("ess.stateOfCharge", 50)]
      "pcc.transfer.power.exchange" =
      some (PhotovoltaicData.mk 2000 10 (-10) (some 50) 2000).grid_exchange ∧
    (PhotovoltaicData.mk 2000 10 (-10) (some 50) 2000).state_of_charge =
      Viessmann.get_feature_value
        [("photovoltaic.production.current", 2), ("ess.power", 10),
         ("pcc.transfer.power.exchange", -10), ("ess.stateOfCharge", 50)]
        "ess.stateOfCharge" ∧
    (PhotovoltaicData.mk 2000 10 (-10) (some 50) 2000).household =
      (PhotovoltaicData.mk 2000 10 (-10) (some 50) 2000).solar_power +
        (PhotovoltaicData.mk 2000 10 (-10) (some 50) 2000).battery_power +
        (PhotovoltaicData.mk 2000 10 (-10) (some 50) 2000).grid_exchange :=
  snapshot_population_amended.1
    [("photovoltaic.production.current", 2), ("ess.power", 10),
     ("pcc.transfer.power.exchange", -10), ("ess.stateOfCharge", 50)]
    (PhotovoltaicData.mk 2000 10 (-10) (some 50) 2000) (by
      have h1 : Viessmann.get_feature_value
          [("photovoltaic.production.current", 2), ("ess.power", 10),
           ("pcc.transfer.power.exchange", -10), ("ess.stateOfCharge", 50)]
          "photovoltaic.production.current" = some 2 := rfl
      have h2 : Viessmann.get_feature_value
          [("photovoltaic.production.current", 2), ("ess.power", 10),
           ("pcc.transfer.power.exchange", -10), ("ess.stateOfCharge", 50)]
          "ess.power" = some 10 := rfl
      have h3 : Viessmann.get_feature_value
          [("photovoltaic.production.current", 2), ("ess.power", 10),
           ("pcc.transfer.power.exchange", -10), ("ess.stateOfCharge", 50)]
          "pcc.transfer.power.exchange" = some (-10) := rfl
      have h4 : Viessmann.get_feature_value
          [("photovoltaic.production.current", 2), ("ess.power", 10),
           ("pcc.transfer.power.exchange", -10), ("ess.stateOfCharge", 50)]
          "ess.stateOfCharge" = some 50 := rfl
      simp only [Viessmann.get_photovoltaic_data, h1, h2, h3, h4]
      norm_num)

/-- C5: set_value issues zero network calls when every desired field
already string-equals the corresponding status value, issues exactly one
call otherwise, and the parameters of that call are exactly the desired
fields whose string form differs from the status value. -/
theorem set_value_diff_calls (status kwargs : List (String × PyVal)) :
    (Charger.set_value_calls status kwargs = 0 ↔
      ∀ kv ∈ kwargs, pyStrOpt (lookupDict status kv.fst) = pyStr kv.snd) ∧
    (Charger.set_value_calls status kwargs = 1 ↔
      ∃ kv ∈ kwargs, pyStrOpt (lookupDict status kv.fst) ≠ pyStr kv.snd) ∧
    (∀ kv, kv ∈ Charger.set_value_params status kwargs ↔
      kv ∈ kwargs ∧ pyStrOpt (lookupDict status kv.fst) ≠ pyStr kv.snd) := by
  refine ⟨?_, ?_, ?_⟩
  · rw [Charger.set_value_calls]
    split
    · rename_i hnil
      rw [Charger.set_value_params, List.filter_eq_nil_iff] at hnil
      simp only [bne_iff_ne, ne_eq, not_not] at hnil
      simpa using hnil
    · rename_i hnil
      rw [Charger.set_value_params] at hnil
      constructor
      · intro h; exact absurd h (by norm_num)
      · intro hall
        exfalso
        apply hnil
        rw [List.filter_eq_nil_iff]
        intro kv hkv
        simp only [bne_iff_ne, ne_eq, not_not]
        exact hall kv hkv
  · rw [Charger.set_value_calls]
    split
    · rename_i hnil
      rw [Charger.set_value_params, List.filter_eq_nil_iff] at hnil
      simp only [bne_iff_ne, ne_eq, not_not] at hnil
      constructor
      · intro h; exact absurd h (by norm_num)
      · rintro ⟨kv, hkv, hne⟩; exact absurd (hnil kv hkv) hne
    · rename_i hnil
      rw [Charger.set_value_params] at hnil
      constructor
      · intro _
        by_contra hno
        push_neg at hno
        apply hnil
        rw [List.filter_eq_nil_iff]
        intro kv hkv
        simp only [bne_iff_ne, ne_eq, not_not]
        exact hno kv hkv
      · intro _; rfl
  · intro kv
    rw [Charger.set_value_params]
    simp [List.mem_filter]

theorem set_value_diff_calls_witness :
    Charger.set_value_calls [("amp", PyVal.int 6)] [("amp", PyVal.int 6)] = 0 :=
  (set_value_diff_calls [("amp", PyVal.int 6)] [("amp", PyVal.int 6)]).1.mpr
    (by decide)

/-- C6 counterexample: calling set_value twice with the same desired fields
and the literally same status performs the network call twice when the
fields differ from the status, violating the at-most-once claim. -/
theorem set_value_twice_same_status_two_calls :
    ¬ (Charger.set_value_calls [] [("frc", PyVal.int 1)] +
       Charger.set_value_calls [] [("frc", PyVal.int 1)] ≤ 1) := by decide

theorem find_key_self {l : List (String × PyVal)} {kv : String × PyVal}
    (hnodup : (l.map Prod.fst).Nodup) (hkv : kv ∈ l) :
    l.find? (fun e => e.fst == kv.fst) = some kv := by
  induction l with
  | nil => cases hkv
  | cons x xs ih =>
    rw [List.find?_cons]
    rcases List.mem_cons.mp hkv with rfl | hmem
    · simp
    · have hkey : kv.fst ∈ xs.map Prod.fst := List.mem_map_of_mem _ hmem
      have hxnot : x.fst ∉ xs.map Prod.fst := (List.nodup_cons.mp hnodup).1
      have hx : (x.fst == kv.fst) = false :=
        beq_eq_false_iff_ne.mpr (fun he => hxnot (he ▸ hkey))
      simp only [hx]
      exact ih (List.nodup_cons.mp hnodup).2 hmem

/-- C6 amended: set_value is stateless, so the second of two identical
calls is a no-op only when the status it receives reflects the first write:
with the status updated by the written fields (as the charger would then
report), the two calls together perform at most one network call. -/
theorem set_value_noop_after_status_update
    (status kwargs : List (String × PyVal))
    (hnodup : (kwargs.map Prod.fst).Nodup) :
    Charger.set_value_calls status kwargs +
      Charger.set_value_calls (kwargs ++ status) kwargs ≤ 1 := by
  have hz : Charger.set_value_calls (kwargs ++ status) kwargs = 0 := by
    have hparams : Charger.set_value_params (kwargs ++ status) kwargs = [] := by
      rw [Charger.set_value_params, List.filter_eq_nil_iff]
      intro kv hkv
      have hfind : (kwargs ++ status).find? (fun e => e.fst == kv.fst) =
          some kv := by
        rw [List.find?_append, find_key_self hnodup hkv]
        rfl
      simp [lookupDict, hfind, pyStrOpt]
    simp [Charger.set_value_calls, hparams]
  rw [hz]
  rw [Charger.set_value_calls]
  split <;> simp

theorem set_value_noop_after_status_update_witness :
    Charger.set_value_calls [] [("frc", PyVal.int 1)] +
      Charger.set_value_calls ([("frc", PyVal.int 1)] ++ [])
        [("frc", PyVal.int 1)] ≤ 1 :=
  set_value_noop_after_status_update [] [("frc", PyVal.int 1)] (by decide)

/-- C7: the readiness gate refuses to proceed exactly when fup is falsy
(regardless of the other fields), or the vehicle state car equals 1
(unplugged), or car equals 4 (complete) while frc equals 0; it proceeds in
every other case. -/
theorem check_for_readiness_cases (fup car frc : Option PyVal) :
    Charger.check_for_readiness fup car frc = true ↔
      (pyTruthy fup = true ∧ pyEqInt car 1 = false ∧
        ¬(pyEqInt car 4 = true ∧ pyEqInt frc 0 = true)) := by
  rw [Charger.check_for_readiness]
  split_ifs with h1 h2 h3
  · simp [Bool.not_eq_true] at h1
    simp [h1]
  · simp only [Bool.not_eq_false] at h1
    simp [h1, h2]
  · simp only [Bool.not_eq_false] at h1
    rw [Bool.and_eq_true] at h3
    simp only [Bool.not_eq_true] at h2
    simp [h1, h2, h3]
  · simp only [Bool.not_eq_false] at h1
    simp only [Bool.not_eq_true] at h2
    rw [Bool.and_eq_true] at h3
    simp [h1, h2, h3]

theorem check_for_readiness_cases_witness :
    Charger.check_for_readiness (some (PyVal.bool true)) (some (PyVal.int 2))
      (some (PyVal.int 0)) = true :=
  (check_for_readiness_cases (some (PyVal.bool true)) (some (PyVal.int 2))
    (some (PyVal.int 0))).mpr (by decide)

/-- C8: for a nonnegative clock, is_token_valid accepts exactly the tokens
that decode with an exp claim strictly greater than now + 60 seconds; a
token that fails to decode, lacks the claim, or expires within the margin
is judged invalid. -/
theorem is_token_valid_iff (decoded : Option (Option ℚ)) (now : ℚ)
    (hnow : 0 ≤ now) :
    Viessmann.is_token_valid decoded now = true ↔
      ∃ e, decoded = some (some e) ∧ now + 60 < e := by
  match decoded with
  | none => simp [Viessmann.is_token_valid]
  | some none => simp [Viessmann.is_token_valid]
  | some (some e) =>
    constructor
    · intro h
      simp only [Viessmann.is_token_valid, Bool.and_eq_true,
        decide_eq_true_eq] at h
      exact ⟨e, rfl, h.2⟩
    · rintro ⟨e2, he2, hgt⟩
      obtain rfl : e = e2 := by
        injection he2 with h2
        injection h2
      simp only [Viessmann.is_token_valid, Bool.and_eq_true, decide_eq_true_eq]
      exact ⟨ne_of_gt (by linarith), hgt⟩

theorem is_token_valid_iff_witness :
    Viessmann.is_token_valid (some (some 10000)) 0 = true :=
  (is_token_valid_iff (some (some 10000)) 0 (le_refl 0)).mpr
    ⟨10000, rfl, by norm_num⟩

/-- C10: when the fup key is absent or holds any falsy value, the readiness
gate decides not to proceed, exactly as if surplus charging were disabled,
and an absent key raises no error. -/
theorem missing_fup_stops (fup car frc : Option PyVal)
    (h : pyTruthy fup = false) :
    Charger.check_for_readiness fup car frc = false ∧
    Charger.check_for_readiness none car frc = false ∧
    Charger.check_for_readiness fup car frc =
      Charger.check_for_readiness (some (PyVal.bool false)) car frc := by
  have hfa : Charger.check_for_readiness fup car frc = false := by
    simp [Charger.check_for_readiness, h]
  have hnone : Charger.check_for_readiness none car frc = false := by
    simp [Charger.check_for_readiness, pyTruthy]
  have hfalse : Charger.check_for_readiness (some (PyVal.bool false)) car frc =
      false := by
    simp [Charger.check_for_readiness, pyTruthy]
  exact ⟨hfa, hnone, hfa.trans hfalse.symm⟩

theorem missing_fup_stops_witness :
    Charger.check_for_readiness none (some (PyVal.int 2))
      (some (PyVal.int 0)) = false :=
  (missing_fup_stops none (some (PyVal.int 2)) (some (PyVal.int 0)) rfl).1
